import Mathlib

/-!
Verification of the task-graph declarations of the utci-comfort-map recipe
repository against the workflow-engine semantics described in its design
specification.

The repository declares directed acyclic graphs of external tool invocations
(pollination_dsl task declarations).  The graph data below (task names,
dependency lists, output references, path templates, input metadata) is
transcribed from the source files.  The execution engine itself
(scheduler, topological ordering, fan-out expansion, template resolution,
grouped sub-DAG surfacing) is not part of the repository; those definitions
are modelled from the specification and are marked as such.
-/

set_option maxRecDepth 4096

/-- Modelled from the spec: the terminal subset of the per-instance
ExecutionState (section 3); Pending, Ready and Running are transient and never
appear in a finished run report. -/
inductive TState
  | Succeeded
  | Failed
  | Skipped
deriving DecidableEq, Repr

/-- Modelled from the spec: a dependency in this state blocks its dependents
(section 4.4: a dependent is Skipped when a required dependency is Failed;
a Skipped dependency propagates the cascade transitively). -/
def isBad : TState → Bool
  | .Succeeded => false
  | .Failed => true
  | .Skipped => true

/-- Modelled from the spec: a Dependency Graph (section 4.1) - the declared
tasks in declaration order together with their needs edges. -/
structure GraphDecl (A : Type) where
  tasks : List A
  needs : A → List A

/-- Modelled from the spec: fuel-indexed scheduler outcome of a single task
(section 4.4): a task is Skipped when some task in its needs set is Failed or
Skipped, otherwise its terminal state is decided by the external operation
(ext t = true when the operation succeeds). -/
def stateAux {A : Type} (G : GraphDecl A) (ext : A → Bool) : Nat → A → TState
  | 0, _ => .Skipped
  | n + 1, t =>
    if (G.needs t).any (fun d => isBad (stateAux G ext n d)) then .Skipped
    else if ext t then .Succeeded else .Failed

/-- Modelled from the spec: one pass of topological_order (section 4.1) -
repeatedly dispatch the first task in declaration order whose dependencies
(needs augmented with implicit output-reference edges) are all already
emitted; declaration order of the remaining tasks is preserved, which
realises the deterministic declaration-order tie-break. -/
def topoAux {A : Type} [DecidableEq A] (edges : A → List A) :
    Nat → List A → List A → List A
  | 0, done, _ => done
  | n + 1, done, rem =>
    match rem.find? (fun t => (edges t).all (fun d => done.contains d)) with
    | some t => topoAux edges n (done ++ [t]) (rem.erase t)
    | none => done

/-- Modelled from the spec: topological_order over a declared graph with the
given (possibly augmented) edge function. -/
def topologicalOrder {A : Type} [DecidableEq A] (G : GraphDecl A)
    (edges : A → List A) : List A :=
  topoAux edges G.tasks.length [] G.tasks

/-- Modelled from the spec: the declaration-order-first task that is not yet
emitted and whose dependencies are all emitted; used to state the
deterministic tie-break of topological_order. -/
def firstReady {A : Type} [DecidableEq A] (edges : A → List A)
    (decl done : List A) : Option A :=
  (decl.filter (fun t => !(done.contains t))).find?
    (fun t => (edges t).all (fun d => done.contains d))

/-- A ranking certifies acyclicity of a finite edge relation: every edge
strictly increases the rank, so no cycle can exist. -/
def rankedAcyclic {A : Type} (edges : A → List A) (rank : A → Nat) : Prop :=
  ∀ t : A, ∀ d ∈ edges t, rank d < rank t

/-- Modelled from the spec: acyclicity of the dependency relation
(section 4.1), certified by a topological ranking. -/
def Acyclic {A : Type} (edges : A → List A) : Prop :=
  ∃ rank : A → Nat, rankedAcyclic edges rank

/-- Task names of UtciComfortMapEntryPoint (entry.py), one constructor per
task attribute, in declaration order. -/
inductive UTask
  | create_sim_par
  | run_energy_simulation
  | create_wea
  | generate_sunpath
  | create_sky_dome
  | create_total_sky
  | create_direct_sky
  | parse_sun_up_hours
  | set_modifiers_from_constructions
  | create_rad_folder
  | copy_grid_info
  | split_grid_folder
  | copy_redist_info
  | create_octree
  | create_octree_with_suns
  | create_view_factor_modifiers
  | split_air_speed_folder
  | create_model_occ_schedules
  | run_radiance_simulation
  | run_comfort_map
  | restructure_temperature_results
  | restructure_condition_results
  | restructure_condition_intensity_results
  | restructure_tcp_results
  | restructure_hsp_results
  | restructure_csp_results
  | create_result_info
  | copy_result_info
deriving DecidableEq, Repr, Fintype

/-- The tasks of UtciComfortMapEntryPoint in declaration order (entry.py). -/
def utciDeclOrder : List UTask :=
  [.create_sim_par, .run_energy_simulation, .create_wea, .generate_sunpath,
   .create_sky_dome, .create_total_sky, .create_direct_sky, .parse_sun_up_hours,
   .set_modifiers_from_constructions, .create_rad_folder, .copy_grid_info,
   .split_grid_folder, .copy_redist_info, .create_octree,
   .create_octree_with_suns, .create_view_factor_modifiers,
   .split_air_speed_folder, .create_model_occ_schedules,
   .run_radiance_simulation, .run_comfort_map,
   .restructure_temperature_results, .restructure_condition_results,
   .restructure_condition_intensity_results, .restructure_tcp_results,
   .restructure_hsp_results, .restructure_csp_results, .create_result_info,
   .copy_result_info]

/-- The needs list of each task of UtciComfortMapEntryPoint, transcribed from
the needs=[...] argument of each task decorator in entry.py. -/
def utciNeeds : UTask → List UTask
  | .create_sim_par => []
  | .run_energy_simulation => [.create_sim_par]
  | .create_wea => []
  | .generate_sunpath => [.create_wea]
  | .create_sky_dome => []
  | .create_total_sky => [.create_wea]
  | .create_direct_sky => [.create_wea]
  | .parse_sun_up_hours => [.generate_sunpath]
  | .set_modifiers_from_constructions => []
  | .create_rad_folder => [.set_modifiers_from_constructions]
  | .copy_grid_info => [.create_rad_folder]
  | .split_grid_folder => [.create_rad_folder]
  | .copy_redist_info => [.split_grid_folder]
  | .create_octree => [.create_rad_folder]
  | .create_octree_with_suns => [.generate_sunpath, .create_rad_folder]
  | .create_view_factor_modifiers => []
  | .split_air_speed_folder => [.create_rad_folder]
  | .create_model_occ_schedules => []
  | .run_radiance_simulation =>
      [.create_sky_dome, .create_octree_with_suns, .create_octree,
       .generate_sunpath, .create_total_sky, .create_direct_sky,
       .create_rad_folder, .split_grid_folder, .create_view_factor_modifiers]
  | .run_comfort_map =>
      [.parse_sun_up_hours, .create_view_factor_modifiers,
       .create_model_occ_schedules, .run_energy_simulation,
       .run_radiance_simulation, .split_grid_folder, .split_air_speed_folder]
  | .restructure_temperature_results => [.run_comfort_map]
  | .restructure_condition_results => [.run_comfort_map]
  | .restructure_condition_intensity_results => [.run_comfort_map]
  | .restructure_tcp_results => [.run_comfort_map]
  | .restructure_hsp_results => [.run_comfort_map]
  | .restructure_csp_results => [.run_comfort_map]
  | .create_result_info => []
  | .copy_result_info => [.create_result_info]

/-- The tasks whose declared outputs each task of UtciComfortMapEntryPoint
references, through an input binding (task._outputs.name) or as its loop
source, transcribed from entry.py. -/
def utciRefs : UTask → List UTask
  | .create_sim_par => []
  | .run_energy_simulation => [.create_sim_par]
  | .create_wea => []
  | .generate_sunpath => [.create_wea]
  | .create_sky_dome => []
  | .create_total_sky => [.create_wea]
  | .create_direct_sky => [.create_wea]
  | .parse_sun_up_hours => [.generate_sunpath]
  | .set_modifiers_from_constructions => []
  | .create_rad_folder => [.set_modifiers_from_constructions]
  | .copy_grid_info => [.create_rad_folder]
  | .split_grid_folder => [.create_rad_folder]
  | .copy_redist_info => [.split_grid_folder]
  | .create_octree => [.create_rad_folder]
  | .create_octree_with_suns => [.create_rad_folder, .generate_sunpath]
  | .create_view_factor_modifiers => []
  | .split_air_speed_folder => [.create_rad_folder]
  | .create_model_occ_schedules => []
  | .run_radiance_simulation =>
      [.create_octree_with_suns, .create_octree,
       .create_view_factor_modifiers, .split_grid_folder, .create_sky_dome,
       .create_total_sky, .create_direct_sky, .generate_sunpath]
  | .run_comfort_map =>
      [.run_energy_simulation, .create_view_factor_modifiers,
       .parse_sun_up_hours, .create_model_occ_schedules,
       .split_air_speed_folder, .split_grid_folder]
  | .restructure_temperature_results => []
  | .restructure_condition_results => []
  | .restructure_condition_intensity_results => []
  | .restructure_tcp_results => []
  | .restructure_hsp_results => []
  | .restructure_csp_results => []
  | .create_result_info => []
  | .copy_result_info => [.create_result_info]

/-- The needs relation augmented with the implicit edges induced by output
references (the augmentation described in the validate() clause of the
spec). -/
def utciAug (t : UTask) : List UTask :=
  utciNeeds t ++ utciRefs t

/-- The dependency graph declared by UtciComfortMapEntryPoint. -/
def utciGraph : GraphDecl UTask :=
  { tasks := utciDeclOrder, needs := utciNeeds }

/-- Longest-chain depth of each task of UtciComfortMapEntryPoint; a
scaffolding table used to discharge fuel-stability side conditions
(verified below: every needs edge strictly decreases it). -/
def utciDepth : UTask → Nat
  | .create_sim_par => 0
  | .run_energy_simulation => 1
  | .create_wea => 0
  | .generate_sunpath => 1
  | .create_sky_dome => 0
  | .create_total_sky => 1
  | .create_direct_sky => 1
  | .parse_sun_up_hours => 2
  | .set_modifiers_from_constructions => 0
  | .create_rad_folder => 1
  | .copy_grid_info => 2
  | .split_grid_folder => 2
  | .copy_redist_info => 3
  | .create_octree => 2
  | .create_octree_with_suns => 2
  | .create_view_factor_modifiers => 0
  | .split_air_speed_folder => 2
  | .create_model_occ_schedules => 0
  | .run_radiance_simulation => 3
  | .run_comfort_map => 4
  | .restructure_temperature_results => 5
  | .restructure_condition_results => 5
  | .restructure_condition_intensity_results => 5
  | .restructure_tcp_results => 5
  | .restructure_hsp_results => 5
  | .restructure_csp_results => 5
  | .create_result_info => 0
  | .copy_result_info => 1

/-- Modelled from the spec: the terminal state the scheduler assigns to each
task of the UtciComfortMapEntryPoint graph, given the success/failure
behaviour ext of the external operations. -/
def runStateU (ext : UTask → Bool) (t : UTask) : TState :=
  stateAux utciGraph ext 30 t

/-- Modelled from the spec: the run report - every declared task paired with
its terminal state (section 7: a run report must enumerate every task's
terminal state). -/
def runReportU (ext : UTask → Bool) : List (UTask × TState) :=
  utciDeclOrder.map (fun t => (t, runStateU ext t))

/-- The topological order of the UtciComfortMapEntryPoint graph over the
augmented dependency relation. -/
def utciTopologicalOrder : List UTask :=
  topologicalOrder utciGraph utciAug

/-- Position of each task in the computed topological order. -/
def utciRank (t : UTask) : Nat :=
  utciTopologicalOrder.indexOf t

/-- Task names of ComfortMappingEntryPoint (_comfort.py), the Grouped Sub-DAG
that is the template of the run_comfort_map task, in declaration order. -/
inductive CTask
  | create_longwave_mrt_map
  | create_shortwave_mrt_map
  | create_air_temperature_map
  | create_rel_humidity_map
  | create_air_speed_json
  | process_utci_matrix
  | compute_tcp
deriving DecidableEq, Repr, Fintype

/-- The tasks of ComfortMappingEntryPoint in declaration order. -/
def comfortDeclOrder : List CTask :=
  [.create_longwave_mrt_map, .create_shortwave_mrt_map,
   .create_air_temperature_map, .create_rel_humidity_map,
   .create_air_speed_json, .process_utci_matrix, .compute_tcp]

/-- The needs list of each task of ComfortMappingEntryPoint, transcribed from
_comfort.py. -/
def comfortNeeds : CTask → List CTask
  | .create_longwave_mrt_map => []
  | .create_shortwave_mrt_map => []
  | .create_air_temperature_map => []
  | .create_rel_humidity_map => []
  | .create_air_speed_json => []
  | .process_utci_matrix =>
      [.create_longwave_mrt_map, .create_shortwave_mrt_map,
       .create_air_temperature_map, .create_rel_humidity_map,
       .create_air_speed_json]
  | .compute_tcp => [.process_utci_matrix]

/-- The dependency graph declared by ComfortMappingEntryPoint. -/
def comfortGraph : GraphDecl CTask :=
  { tasks := comfortDeclOrder, needs := comfortNeeds }

/-- Longest-chain depth of each inner task (proof scaffolding). -/
def comfortDepth : CTask → Nat
  | .create_longwave_mrt_map => 0
  | .create_shortwave_mrt_map => 0
  | .create_air_temperature_map => 0
  | .create_rel_humidity_map => 0
  | .create_air_speed_json => 0
  | .process_utci_matrix => 1
  | .compute_tcp => 2

/-- Modelled from the spec: terminal state of each inner task of the
ComfortMappingEntryPoint sub-DAG under inner external behaviour ext. -/
def runStateC (ext : CTask → Bool) (t : CTask) : TState :=
  stateAux comfortGraph ext 6 t

/-- Modelled from the spec: the identity preserved in the error reported for
a failed Grouped Sub-DAG (section 4.3) - the first inner task, in declaration
order, whose terminal state is Failed. -/
def reportedInnerFailure (ext : CTask → Bool) : Option CTask :=
  comfortDeclOrder.find? (fun t => runStateC ext t == .Failed)

/-- Destination paths written by the tasks of ComfortMappingEntryPoint
(the to entries of _comfort.py); the sub-DAG surfaces these to the parent
graph on full success. -/
def comfortOutputPaths : List String :=
  ["conditions/longwave_mrt/\x7b\x7bself.name\x7d\x7d.csv",
   "conditions/shortwave_mrt/\x7b\x7bself.name\x7d\x7d.csv",
   "conditions/air_temperature/\x7b\x7bself.name\x7d\x7d.csv",
   "conditions/rel_humidity/\x7b\x7bself.name\x7d\x7d.csv",
   "conditions/air_speed/\x7b\x7bself.name\x7d\x7d.json",
   "results/temperature/\x7b\x7bself.name\x7d\x7d.csv",
   "results/condition/\x7b\x7bself.name\x7d\x7d.csv",
   "results/condition_intensity/\x7b\x7bself.name\x7d\x7d.csv",
   "metrics/TCP/\x7b\x7bself.name\x7d\x7d.csv",
   "metrics/HSP/\x7b\x7bself.name\x7d\x7d.csv",
   "metrics/CSP/\x7b\x7bself.name\x7d\x7d.csv"]

/-- Modelled from the spec: a Grouped Sub-DAG surfaces its declared outputs
to the parent if and only if every inner task Succeeded (section 4.3). -/
def surfacedOutputs (ext : CTask → Bool) : Option (List String) :=
  if comfortDeclOrder.all (fun t => runStateC ext t == .Succeeded) then
    some comfortOutputPaths
  else none

/-- Modelled from the spec: the terminal state the parent graph records for
the single outer task wrapping the sub-DAG - Failed as soon as any inner
task did not succeed (section 4.3). -/
def outerStateOfInner (ext : CTask → Bool) : TState :=
  if comfortDeclOrder.all (fun t => runStateC ext t == .Succeeded) then
    .Succeeded
  else .Failed

/-- Modelled from the spec: one element of a loop-expanded sequence
(section 3, Item) - the sensor-grid items produced by split_grid_folder,
with their identifier field full_id and their count field. -/
structure Item where
  full_id : String
  count : Nat
deriving DecidableEq, Repr

/-- Modelled from the spec: one piece of a parsed path template - a literal
character, an item-scope token or a self-scope token (section 9: template
strings are simple token substitution over the two fixed scopes item and
self). -/
inductive TplPart
  | lit (c : Char)
  | itemField (name : String)
  | selfField (name : String)
deriving DecidableEq, Repr

/-- Reads the characters of a template token up to the closing double brace;
returns the token text and the remainder of the template. -/
def readToken : List Char → Option (List Char × List Char)
  | '\x7d' :: '\x7d' :: rest => some ([], rest)
  | c :: rest =>
      match readToken rest with
      | some (tok, rem) => some (c :: tok, rem)
      | none => none
  | [] => none

/-- Splits a token at its first dot into scope and field name. -/
def splitField : List Char → List Char × List Char
  | [] => ([], [])
  | '.' :: rest => ([], rest)
  | c :: rest =>
      match splitField rest with
      | (a, b) => (c :: a, b)

/-- Classifies one token into an item-scope or self-scope template part;
any other scope is kept as literal text (it could not have been authored by
this repository's declarations). -/
def mkPart (tok : List Char) : List TplPart :=
  match splitField tok with
  | (scope, name) =>
    if scope = ['i', 't', 'e', 'm'] then [.itemField (String.mk name)]
    else if scope = ['s', 'e', 'l', 'f'] then [.selfField (String.mk name)]
    else (tok.map .lit)

/-- Fuel-indexed template scanner: finds double-brace tokens and keeps the
rest as literal characters. -/
def parseTplAux : Nat → List Char → List TplPart
  | _, [] => []
  | 0, cs => cs.map .lit
  | n + 1, '\x7b' :: '\x7b' :: rest =>
      match readToken rest with
      | some (tok, rem) => mkPart tok ++ parseTplAux n rem
      | none => ('\x7b' :: '\x7b' :: rest).map .lit
  | n + 1, c :: rest => .lit c :: parseTplAux n rest

/-- Modelled from the spec: parse a template string into its parts
(section 4.2 / section 9). -/
def parseTpl (s : String) : List TplPart :=
  parseTplAux s.length s.toList

/-- Modelled from the spec: render parsed template parts, resolving
item-scope and self-scope tokens through the given lookups; an unresolvable
token is a TemplateResolutionError, rendered as none. -/
def renderTpl (itemF selfF : String → Option (List Char)) :
    List TplPart → Option (List Char)
  | [] => some []
  | .lit c :: ps => (renderTpl itemF selfF ps).map (fun r => c :: r)
  | .itemField n :: ps =>
      match itemF n, renderTpl itemF selfF ps with
      | some v, some r => some (v ++ r)
      | _, _ => none
  | .selfField n :: ps =>
      match selfF n, renderTpl itemF selfF ps with
      | some v, some r => some (v ++ r)
      | _, _ => none

/-- Modelled from the spec: the item scope - the named fields of an Item
addressable from template expressions. -/
def itemScope (it : Item) : String → Option (List Char)
  | "full_id" => some it.full_id.toList
  | "count" => some (toString it.count).toList
  | _ => none

/-- A scope with no fields, for templates that may not use the respective
scope. -/
def noScope : String → Option (List Char) :=
  fun _ => none

/-- Modelled from the spec: resolve a template string against one Item
(item scope only, as in sub_paths and templated inputs of looping tasks). -/
def resolveItemTpl (it : Item) (s : String) : Option String :=
  (renderTpl (itemScope it) noScope (parseTpl s)).map String.mk

/-- Modelled from the spec: resolve a template string against the enclosing
task's own static fields (self scope), as in the to paths of inner tasks. -/
def resolveSelfTpl (selfF : String → Option (List Char)) (s : String) :
    Option String :=
  (renderTpl noScope selfF (parseTpl s)).map String.mk

/-- Modelled from the spec: the loop-relevant part of a looping
TaskDescriptor - its name, its per-item sub_paths overrides and its
item-templated scalar inputs (section 4.2). -/
structure LoopTaskDecl where
  name : String
  subFolder : String
  subPaths : List (String × String)
  templatedInputs : List (String × String)
deriving Repr

/-- Modelled from the spec: a concrete, fully-resolved invocation of a
looping TaskDescriptor for one Item (section 3, TaskInstance). -/
structure TaskInstance where
  taskName : String
  subPaths : List (String × String)
  inputs : List (String × String)
deriving DecidableEq, Repr

/-- Modelled from the spec: the Fan-out Expander (section 4.2) - one
TaskInstance per Item, with every item-scope token in sub_paths and
templated inputs replaced by the corresponding field of that Item (an
unresolved token keeps the template text here; the claims only exercise
resolvable templates). -/
def fanOut (d : LoopTaskDecl) (items : List Item) : List TaskInstance :=
  items.map (fun it =>
    { taskName := d.name
      subPaths := d.subPaths.map
        (fun p => (p.1, (resolveItemTpl it p.2).getD p.2))
      inputs := d.templatedInputs.map
        (fun p => (p.1, (resolveItemTpl it p.2).getD p.2)) })

/-- Modelled from the spec: terminal state of a fanned-out looping task as a
whole - Succeeded when every expanded instance succeeded, hence vacuously
Succeeded for an empty Item sequence (section 4.2, edge case). -/
def loopOutcome (instSucc : TaskInstance → Bool) (d : LoopTaskDecl)
    (items : List Item) : TState :=
  if (fanOut d items).all instSucc then .Succeeded else .Failed

/-- The loop declaration of the run_radiance_simulation task, transcribed
from entry.py: sub_folder radiance, the sensor_grid sub-path and the two
item-templated inputs. -/
def runRadianceLoopDecl : LoopTaskDecl :=
  { name := "run_radiance_simulation"
    subFolder := "radiance"
    subPaths := [("sensor_grid", "\x7b\x7bitem.full_id\x7d\x7d.pts")]
    templatedInputs :=
      [("grid_name", "\x7b\x7bitem.full_id\x7d\x7d"),
       ("sensor_count", "\x7b\x7bitem.count\x7d\x7d")] }

/-- The loop declaration of the run_comfort_map task, transcribed from
entry.py: sub_folder initial_results, six per-item sub-paths and the
item-templated grid_name input. -/
def runComfortLoopDecl : LoopTaskDecl :=
  { name := "run_comfort_map"
    subFolder := "initial_results"
    subPaths :=
      [("enclosure_info", "\x7b\x7bitem.full_id\x7d\x7d.json"),
       ("view_factors", "\x7b\x7bitem.full_id\x7d\x7d.csv"),
       ("indirect_irradiance", "\x7b\x7bitem.full_id\x7d\x7d.ill"),
       ("direct_irradiance", "\x7b\x7bitem.full_id\x7d\x7d.ill"),
       ("ref_irradiance", "\x7b\x7bitem.full_id\x7d\x7d.ill"),
       ("air_speed_mtx", "\x7b\x7bitem.full_id\x7d\x7d.csv")]
    templatedInputs := [("grid_name", "\x7b\x7bitem.full_id\x7d\x7d")] }

/-- Literal base folders bound by run_comfort_map (entry.py) for its per-item
file inputs; each is combined with the corresponding sub_paths template. -/
def runComfortMapInputBases : List (String × String) :=
  [("enclosure_info", "radiance/enclosures"),
   ("view_factors", "radiance/longwave/view_factors"),
   ("indirect_irradiance", "radiance/shortwave/results/indirect"),
   ("direct_irradiance", "radiance/shortwave/results/direct"),
   ("ref_irradiance", "radiance/shortwave/results/reflected")]

/-- The to path of the enclosure_file output of get_enclosure_info
(_radiance.py). -/
def getEnclosureInfoTo : String :=
  "enclosures/\x7b\x7bself.name\x7d\x7d.json"

/-- The to path of the results_file output of output_matrix_math
(_radiance.py). -/
def outputMatrixMathTo : String :=
  "shortwave/results/indirect/\x7b\x7bself.name\x7d\x7d.ill"

/-- The to path of the view_factor_file output of
compute_spherical_view_factors (_radiance.py). -/
def computeSphericalViewFactorsTo : String :=
  "longwave/view_factors/\x7b\x7bself.name\x7d\x7d.csv"

/-- The declared outputs of split_air_speed_folder (entry.py): the
output_folder output is written to initial_results/conditions/air_speeds. -/
def splitAirSpeedFolderOutputs : List (String × String) :=
  [("output_folder", "initial_results/conditions/air_speeds")]

/-- The output reference bound to the air_speed_mtx input of run_comfort_map
(entry.py): split_air_speed_folder._outputs.output_folder. -/
def runComfortAirSpeedRef : UTask × String :=
  (.split_air_speed_folder, "output_folder")

/-- Modelled from the spec: the per-item resolved path of one file input of a
run_comfort_map instance - the bound base folder joined with the resolved
sub_paths template of that input (section 4.2). -/
def resolvedRunComfortInput (it : Item) (n : String) : Option String := do
  let base ← List.lookup n runComfortMapInputBases
  let sp ← List.lookup n runComfortLoopDecl.subPaths
  let r ← resolveItemTpl it sp
  pure (base ++ "/" ++ r)

/-- The resolved grid_name input of a run_radiance_simulation instance. -/
def gridNameOfItem (it : Item) : Option String :=
  resolveItemTpl it
    ((List.lookup "grid_name" runRadianceLoopDecl.templatedInputs).getD "")

/-- Modelled from the spec: the fully-resolved destination path of an inner
task of RadianceMappingEntryPoint for one Item - the to template rendered
with self.name bound to the resolved grid_name, prefixed by the sub_folder
radiance of the run_radiance_simulation task (sections 4.2 and 4.3). -/
def producerPathUnderRadiance (it : Item) (toTpl : String) : Option String := do
  let g ← gridNameOfItem it
  let inner ← resolveSelfTpl
    (fun n => if n = "name" then some g.toList else none) toTpl
  pure (runRadianceLoopDecl.subFolder ++ "/" ++ inner)

/-- Declared metadata of one recipe input: its name, whether a default value
is declared and whether it is marked optional. -/
structure InputDecl where
  name : String
  hasDefault : Bool
  optional : Bool
deriving DecidableEq, Repr

/-- The inputs of ComfortMappingEntryPoint (_comfort.py) in declaration
order, with their default/optional metadata. -/
def comfortMappingInputs : List InputDecl :=
  [⟨"epw", false, false⟩,
   ⟨"result_sql", false, true⟩,
   ⟨"grid_name", false, false⟩,
   ⟨"enclosure_info", false, false⟩,
   ⟨"view_factors", false, false⟩,
   ⟨"modifiers", false, false⟩,
   ⟨"indirect_irradiance", false, false⟩,
   ⟨"direct_irradiance", false, false⟩,
   ⟨"ref_irradiance", false, false⟩,
   ⟨"sun_up_hours", false, false⟩,
   ⟨"occ_schedules", false, false⟩,
   ⟨"schedule", false, true⟩,
   ⟨"transmittance_contribs", false, true⟩,
   ⟨"trans_schedules", false, false⟩,
   ⟨"run_period", true, false⟩,
   ⟨"wind_speed", false, true⟩,
   ⟨"air_speed_mtx", false, true⟩,
   ⟨"solarcal_parameters", true, false⟩,
   ⟨"comfort_parameters", true, false⟩]

/-- The inputs of RadianceMappingEntryPoint (_radiance.py). -/
def radianceMappingInputs : List InputDecl :=
  [⟨"radiance_parameters", true, false⟩,
   ⟨"model", false, false⟩,
   ⟨"octree_file_with_suns", false, false⟩,
   ⟨"octree_file", false, false⟩,
   ⟨"octree_file_view_factor", false, false⟩,
   ⟨"grid_name", false, false⟩,
   ⟨"sensor_grid", false, false⟩,
   ⟨"sensor_count", false, false⟩,
   ⟨"sky_dome", false, false⟩,
   ⟨"sky_matrix", false, false⟩,
   ⟨"sky_matrix_direct", false, false⟩,
   ⟨"sun_modifiers", false, false⟩,
   ⟨"view_factor_modifiers", false, false⟩]

/-- The inputs of ShadeContribEntryPoint (_shdcontrib.py). -/
def shadeContribInputs : List InputDecl :=
  [⟨"radiance_parameters", true, false⟩,
   ⟨"octree_file", false, false⟩,
   ⟨"octree_file_with_suns", false, false⟩,
   ⟨"group_name", false, false⟩,
   ⟨"grid_name", false, false⟩,
   ⟨"sensor_grid", false, false⟩,
   ⟨"ref_sensor_grid", false, false⟩,
   ⟨"sensor_count", false, false⟩,
   ⟨"sky_dome", false, false⟩,
   ⟨"sky_matrix", false, false⟩,
   ⟨"sky_matrix_direct", false, false⟩,
   ⟨"sun_modifiers", false, false⟩,
   ⟨"sun_up_hours", false, false⟩]

/-- The inputs of AnnualIrradianceRayTracing (_raytracing.py). -/
def annualIrradianceRayTracingInputs : List InputDecl :=
  [⟨"sensor_count", true, false⟩,
   ⟨"radiance_parameters", true, false⟩,
   ⟨"octree_file_with_suns", false, false⟩,
   ⟨"octree_file", false, false⟩,
   ⟨"grid_name", false, false⟩,
   ⟨"sensor_grid", false, false⟩,
   ⟨"sun_modifiers", false, false⟩,
   ⟨"sky_matrix", false, false⟩,
   ⟨"sky_matrix_direct", false, false⟩,
   ⟨"sky_dome", false, false⟩,
   ⟨"bsdfs", false, true⟩]

/-- The inputs of SphericalViewFactor (_view_factor_contribution.py). -/
def sphericalViewFactorInputs : List InputDecl :=
  [⟨"radiance_parameters", true, false⟩,
   ⟨"scene_file", false, false⟩,
   ⟨"grid_name", false, false⟩,
   ⟨"sensor_grid", false, false⟩,
   ⟨"modifiers", false, false⟩]

/-- A task whose template is another DAG or GroupedDAG class of this
repository: the inner template's declared inputs and the input names the
outer task declaration binds. -/
structure DagTemplateTask where
  taskName : String
  templateInputs : List InputDecl
  bindings : List String
deriving Repr

/-- Every task of this repository whose template is another DAG or
GroupedDAG class, with the parameter names bound by the outer task function,
transcribed from entry.py, _dynshade.py, _irradiance.py and
_view_factor.py. -/
def dagTemplateTasks : List DagTemplateTask :=
  [⟨"run_radiance_simulation", radianceMappingInputs,
    ["radiance_parameters", "model", "octree_file_with_suns", "octree_file",
     "octree_file_view_factor", "grid_name", "sensor_grid", "sensor_count",
     "sky_dome", "sky_matrix", "sky_matrix_direct", "sun_modifiers",
     "view_factor_modifiers"]⟩,
   ⟨"run_comfort_map", comfortMappingInputs,
    ["epw", "result_sql", "grid_name", "enclosure_info", "view_factors",
     "modifiers", "indirect_irradiance", "direct_irradiance",
     "ref_irradiance", "sun_up_hours", "occ_schedules", "schedule",
     "run_period", "wind_speed", "air_speed_mtx", "solarcal_par",
     "comfort_par"]⟩,
   ⟨"run_radiance_shade_contrib", shadeContribInputs,
    ["radiance_parameters", "octree_file", "octree_file_with_suns",
     "group_name", "grid_name", "sensor_grid", "ref_sensor_grid",
     "sensor_count", "sky_dome", "sky_matrix", "sky_matrix_direct",
     "sun_modifiers", "sun_up_hours"]⟩,
   ⟨"annual_irradiance_raytracing", annualIrradianceRayTracingInputs,
    ["radiance_parameters", "octree_file_with_suns", "octree_file",
     "grid_name", "sensor_grid", "sensor_count", "sky_dome", "sky_matrix",
     "sky_matrix_direct", "sunpath", "sun_modifiers", "bsdfs"]⟩,
   ⟨"calculate_spherical_view_factors", sphericalViewFactorInputs,
    ["grid_name", "radiance_parameters", "modifiers", "sensor_grid",
     "scene_file"]⟩]

/-- The names of the inputs of a template that declare neither a default
value nor optional=True. -/
def requiredInputNames (l : List InputDecl) : List String :=
  (l.filter (fun i => !i.hasDefault && !i.optional)).map (fun i => i.name)

/-- The required inputs of a DAG-templated task's inner template that the
outer task declaration leaves unbound. -/
def unboundRequired (d : DagTemplateTask) : List String :=
  (requiredInputNames d.templateInputs).filter
    (fun n => !(d.bindings.contains n))

/-- The extensions list declared on the view_factors input of
ComfortMappingEntryPoint (_comfort.py). -/
def viewFactorsExtensions : List String :=
  ["npy"]

/-- File extension of a path: the characters after the last dot. -/
def extensionOf (p : String) : String :=
  String.mk ((p.toList.reverse.takeWhile (fun c => c ≠ '.')).reverse)

/-- One task declaration of some DAG class of the repository: its declared
needs list and the names of the tasks whose outputs it references in its
input bindings or as its loop source. -/
structure NamedTask where
  name : String
  needs : List String
  refs : List String
deriving DecidableEq, Repr

/-- All task declarations of all DAG and GroupedDAG classes of the
repository, with needs and output references transcribed file by file. -/
def repoGraphs : List (String × List NamedTask) :=
  [("UtciComfortMapEntryPoint",
    [⟨"create_sim_par", [], []⟩,
     ⟨"run_energy_simulation", ["create_sim_par"], ["create_sim_par"]⟩,
     ⟨"create_wea", [], []⟩,
     ⟨"generate_sunpath", ["create_wea"], ["create_wea"]⟩,
     ⟨"create_sky_dome", [], []⟩,
     ⟨"create_total_sky", ["create_wea"], ["create_wea"]⟩,
     ⟨"create_direct_sky", ["create_wea"], ["create_wea"]⟩,
     ⟨"parse_sun_up_hours", ["generate_sunpath"], ["generate_sunpath"]⟩,
     ⟨"set_modifiers_from_constructions", [], []⟩,
     ⟨"create_rad_folder", ["set_modifiers_from_constructions"],
      ["set_modifiers_from_constructions"]⟩,
     ⟨"copy_grid_info", ["create_rad_folder"], ["create_rad_folder"]⟩,
     ⟨"split_grid_folder", ["create_rad_folder"], ["create_rad_folder"]⟩,
     ⟨"copy_redist_info", ["split_grid_folder"], ["split_grid_folder"]⟩,
     ⟨"create_octree", ["create_rad_folder"], ["create_rad_folder"]⟩,
     ⟨"create_octree_with_suns", ["generate_sunpath", "create_rad_folder"],
      ["create_rad_folder", "generate_sunpath"]⟩,
     ⟨"create_view_factor_modifiers", [], []⟩,
     ⟨"split_air_speed_folder", ["create_rad_folder"], ["create_rad_folder"]⟩,
     ⟨"create_model_occ_schedules", [], []⟩,
     ⟨"run_radiance_simulation",
      ["create_sky_dome", "create_octree_with_suns", "create_octree",
       "generate_sunpath", "create_total_sky", "create_direct_sky",
       "create_rad_folder", "split_grid_folder",
       "create_view_factor_modifiers"],
      ["create_octree_with_suns", "create_octree",
       "create_view_factor_modifiers", "split_grid_folder",
       "create_sky_dome", "create_total_sky", "create_direct_sky",
       "generate_sunpath"]⟩,
     ⟨"run_comfort_map",
      ["parse_sun_up_hours", "create_view_factor_modifiers",
       "create_model_occ_schedules", "run_energy_simulation",
       "run_radiance_simulation", "split_grid_folder",
       "split_air_speed_folder"],
      ["run_energy_simulation", "create_view_factor_modifiers",
       "parse_sun_up_hours", "create_model_occ_schedules",
       "split_air_speed_folder", "split_grid_folder"]⟩,
     ⟨"restructure_temperature_results", ["run_comfort_map"], []⟩,
     ⟨"restructure_condition_results", ["run_comfort_map"], []⟩,
     ⟨"restructure_condition_intensity_results", ["run_comfort_map"], []⟩,
     ⟨"restructure_tcp_results", ["run_comfort_map"], []⟩,
     ⟨"restructure_hsp_results", ["run_comfort_map"], []⟩,
     ⟨"restructure_csp_results", ["run_comfort_map"], []⟩,
     ⟨"create_result_info", [], []⟩,
     ⟨"copy_result_info", ["create_result_info"], ["create_result_info"]⟩]),
   ("ComfortMappingEntryPoint",
    [⟨"create_longwave_mrt_map", [], []⟩,
     ⟨"create_shortwave_mrt_map", [], []⟩,
     ⟨"create_air_temperature_map", [], []⟩,
     ⟨"create_rel_humidity_map", [], []⟩,
     ⟨"create_air_speed_json", [], []⟩,
     ⟨"process_utci_matrix",
      ["create_longwave_mrt_map", "create_shortwave_mrt_map",
       "create_air_temperature_map", "create_rel_humidity_map",
       "create_air_speed_json"],
      ["create_air_temperature_map", "create_rel_humidity_map",
       "create_longwave_mrt_map", "create_shortwave_mrt_map",
       "create_air_speed_json"]⟩,
     ⟨"compute_tcp", ["process_utci_matrix"], ["process_utci_matrix"]⟩]),
   ("RadianceMappingEntryPoint",
    [⟨"get_enclosure_info", [], []⟩,
     ⟨"compute_spherical_view_factors", [], []⟩,
     ⟨"mirror_the_grid", [], []⟩,
     ⟨"direct_sun", ["mirror_the_grid"], ["mirror_the_grid"]⟩,
     ⟨"direct_sky", ["mirror_the_grid"], ["mirror_the_grid"]⟩,
     ⟨"total_sky", ["mirror_the_grid"], ["mirror_the_grid"]⟩,
     ⟨"output_matrix_math", ["total_sky", "direct_sky"],
      ["total_sky", "direct_sky"]⟩,
     ⟨"ground_reflected_sky", ["mirror_the_grid"], ["mirror_the_grid"]⟩]),
   ("PrepareFolder",
    [⟨"create_wea", [], []⟩,
     ⟨"generate_sunpath", ["create_wea"], ["create_wea"]⟩,
     ⟨"create_sky_dome", [], []⟩,
     ⟨"create_total_sky", ["create_wea"], ["create_wea"]⟩,
     ⟨"create_direct_sky", ["create_wea"], ["create_wea"]⟩,
     ⟨"parse_sun_up_hours", ["generate_sunpath"], ["generate_sunpath"]⟩,
     ⟨"set_modifiers_from_constructions", [], []⟩,
     ⟨"create_rad_folder", ["set_modifiers_from_constructions"],
      ["set_modifiers_from_constructions"]⟩,
     ⟨"copy_grid_info", ["create_rad_folder"], ["create_rad_folder"]⟩,
     ⟨"split_grid_folder", ["create_rad_folder"], ["create_rad_folder"]⟩,
     ⟨"copy_redist_info", ["split_grid_folder"], ["split_grid_folder"]⟩,
     ⟨"create_octree", ["create_rad_folder"], ["create_rad_folder"]⟩,
     ⟨"create_octree_with_suns", ["generate_sunpath", "create_rad_folder"],
      ["create_rad_folder", "generate_sunpath"]⟩,
     ⟨"create_dynamic_shade_octrees",
      ["generate_sunpath", "create_rad_folder"],
      ["create_rad_folder", "generate_sunpath"]⟩,
     ⟨"create_model_trans_schedules", [], []⟩,
     ⟨"create_view_factor_modifiers", [], []⟩,
     ⟨"split_air_speed_folder", ["create_rad_folder"],
      ["create_rad_folder"]⟩,
     ⟨"create_model_occ_schedules", [], []⟩]),
   ("DynamicShadeContribEntryPoint",
    [⟨"read_grids_for_shade", [], []⟩,
     ⟨"run_radiance_shade_contrib", ["read_grids_for_shade"],
      ["read_grids_for_shade"]⟩]),
   ("EnergySimulation",
    [⟨"create_sim_par", [], []⟩,
     ⟨"run_energy_simulation", ["create_sim_par"], ["create_sim_par"]⟩]),
   ("AnnualIrradianceEntryPoint",
    [⟨"generate_sunpath", [], []⟩,
     ⟨"create_rad_folder", [], []⟩,
     ⟨"copy_grid_info", ["create_rad_folder"], ["create_rad_folder"]⟩,
     ⟨"split_grid_folder", ["create_rad_folder"], ["create_rad_folder"]⟩,
     ⟨"copy_redist_info", ["split_grid_folder"], ["split_grid_folder"]⟩,
     ⟨"create_octree", ["create_rad_folder"], ["create_rad_folder"]⟩,
     ⟨"create_octree_with_suns", ["generate_sunpath", "create_rad_folder"],
      ["create_rad_folder", "generate_sunpath"]⟩,
     ⟨"create_sky_dome", [], []⟩,
     ⟨"create_total_sky", [], []⟩,
     ⟨"create_direct_sky", [], []⟩,
     ⟨"parse_sun_up_hours", ["generate_sunpath"], ["generate_sunpath"]⟩,
     ⟨"copy_sun_up_hours", ["parse_sun_up_hours"], ["parse_sun_up_hours"]⟩,
     ⟨"annual_irradiance_raytracing",
      ["create_sky_dome", "create_octree_with_suns", "create_octree",
       "generate_sunpath", "create_total_sky", "create_direct_sky",
       "create_rad_folder", "split_grid_folder"],
      ["create_octree_with_suns", "create_octree", "split_grid_folder",
       "create_sky_dome", "create_total_sky", "create_direct_sky",
       "generate_sunpath", "create_rad_folder"]⟩,
     ⟨"restructure_total_results", ["annual_irradiance_raytracing"], []⟩,
     ⟨"restructure_direct_results", ["annual_irradiance_raytracing"], []⟩]),
   ("AnnualIrradianceRayTracing",
    [⟨"split_grid", [], []⟩,
     ⟨"direct_sun", ["split_grid"], ["split_grid"]⟩,
     ⟨"direct_sky", ["split_grid"], ["split_grid"]⟩,
     ⟨"total_sky", ["split_grid"], ["split_grid"]⟩,
     ⟨"output_matrix_math",
      ["split_grid", "direct_sun", "total_sky", "direct_sky"],
      ["split_grid"]⟩,
     ⟨"merge_total_results", ["output_matrix_math"], []⟩,
     ⟨"merge_direct_results", ["output_matrix_math"], []⟩]),
   ("ShadeContribEntryPoint",
    [⟨"direct_sun_shade_group", [], []⟩,
     ⟨"direct_sky_shade_group", [], []⟩,
     ⟨"total_sky_spec_shade_group", [], []⟩,
     ⟨"output_matrix_math_shade_group",
      ["total_sky_spec_shade_group", "direct_sky_shade_group"],
      ["total_sky_spec_shade_group", "direct_sky_shade_group"]⟩,
     ⟨"ground_reflected_sky_shade_group", [], []⟩]),
   ("SphericalViewFactorEntryPoint",
    [⟨"split_modifiers", [], []⟩,
     ⟨"calculate_spherical_view_factors", ["split_modifiers"],
      ["split_modifiers"]⟩,
     ⟨"restructure_view_factor",
      ["calculate_spherical_view_factors", "split_modifiers"],
      ["split_modifiers"]⟩]),
   ("SphericalViewFactor",
    [⟨"compute_spherical_view_factors", [], []⟩])]

/-- The six restructure tasks of UtciComfortMapEntryPoint, each needing
run_comfort_map (entry.py). -/
def restructureTasks : List UTask :=
  [.restructure_temperature_results, .restructure_condition_results,
   .restructure_condition_intensity_results, .restructure_tcp_results,
   .restructure_hsp_results, .restructure_csp_results]

/-- External behaviour in which only run_energy_simulation fails. -/
def extEnergyFails : UTask → Bool :=
  fun t => !(t == .run_energy_simulation)

/-- Inner external behaviour in which only create_longwave_mrt_map fails. -/
def extLongwaveFails : CTask → Bool :=
  fun t => !(t == .create_longwave_mrt_map)

theorem listAny_congr {A : Type} {l : List A} {f g : A → Bool}
    (h : ∀ x ∈ l, f x = g x) : l.any f = l.any g := by
  induction l with
  | nil => rfl
  | cons a l2 ih =>
      simp only [List.any_cons]
      rw [h a (by simp), ih (fun x hx => h x (by simp [hx]))]

theorem stateAux_stable {A : Type} (G : GraphDecl A) (depth : A → Nat)
    (hd : ∀ t : A, ∀ d ∈ G.needs t, depth d < depth t) (ext : A → Bool) :
    ∀ k : Nat, ∀ t : A, ∀ n m : Nat, depth t < k → k ≤ n → k ≤ m →
      stateAux G ext n t = stateAux G ext m t := by
  intro k
  induction k with
  | zero =>
      intro t n m hdt hkn hkm
      exact absurd hdt (Nat.not_lt_zero _)
  | succ k ih =>
      intro t n m hdt hkn hkm
      obtain ⟨n0, rfl⟩ : ∃ n0, n = n0 + 1 := ⟨n - 1, by omega⟩
      obtain ⟨m0, rfl⟩ : ∃ m0, m = m0 + 1 := ⟨m - 1, by omega⟩
      simp only [stateAux]
      have hany : (G.needs t).any (fun d => isBad (stateAux G ext n0 d)) =
          (G.needs t).any (fun d => isBad (stateAux G ext m0 d)) := by
        apply listAny_congr
        intro d hdmem
        have h1 : depth d < k := by
          have h2 := hd t d hdmem
          omega
        rw [ih d n0 m0 h1 (by omega) (by omega)]
      rw [hany]

theorem utci_depth_decreasing :
    ∀ t : UTask, ∀ d ∈ utciGraph.needs t, utciDepth d < utciDepth t := by
  decide

theorem utci_depth_lt : ∀ t : UTask, utciDepth t < 29 := by
  decide

theorem runStateU_unfold (ext : UTask → Bool) (t : UTask) :
    runStateU ext t =
      if (utciNeeds t).any (fun d => isBad (runStateU ext d)) then .Skipped
      else if ext t then .Succeeded else .Failed := by
  have h0 : stateAux utciGraph ext (29 + 1) t =
      if (utciGraph.needs t).any
          (fun d => isBad (stateAux utciGraph ext 29 d)) then .Skipped
      else if ext t then .Succeeded else .Failed := rfl
  have hany : (utciGraph.needs t).any
        (fun d => isBad (stateAux utciGraph ext 29 d)) =
      (utciNeeds t).any (fun d => isBad (runStateU ext d)) := by
    apply listAny_congr
    intro d hdmem
    have hs := stateAux_stable utciGraph utciDepth utci_depth_decreasing ext
      (utciDepth d + 1) d 29 30
      (by omega)
      (by have := utci_depth_lt d; omega)
      (by have := utci_depth_lt d; omega)
    rw [show runStateU ext d = stateAux utciGraph ext 30 d from rfl, hs]
  show stateAux utciGraph ext (29 + 1) t = _
  rw [h0, hany]

theorem comfort_depth_decreasing :
    ∀ t : CTask, ∀ d ∈ comfortGraph.needs t, comfortDepth d < comfortDepth t := by
  decide

theorem comfort_depth_lt : ∀ t : CTask, comfortDepth t < 5 := by
  decide

theorem runStateC_unfold (ext : CTask → Bool) (t : CTask) :
    runStateC ext t =
      if (comfortNeeds t).any (fun d => isBad (runStateC ext d)) then .Skipped
      else if ext t then .Succeeded else .Failed := by
  have h0 : stateAux comfortGraph ext (5 + 1) t =
      if (comfortGraph.needs t).any
          (fun d => isBad (stateAux comfortGraph ext 5 d)) then .Skipped
      else if ext t then .Succeeded else .Failed := rfl
  have hany : (comfortGraph.needs t).any
        (fun d => isBad (stateAux comfortGraph ext 5 d)) =
      (comfortNeeds t).any (fun d => isBad (runStateC ext d)) := by
    apply listAny_congr
    intro d hdmem
    have hs := stateAux_stable comfortGraph comfortDepth comfort_depth_decreasing
      ext (comfortDepth d + 1) d 5 6
      (by omega)
      (by have := comfort_depth_lt d; omega)
      (by have := comfort_depth_lt d; omega)
    rw [show runStateC ext d = stateAux comfortGraph ext 6 d from rfl, hs]
  show stateAux comfortGraph ext (5 + 1) t = _
  rw [h0, hany]

theorem mem_runReport (ext : UTask → Bool) (t : UTask) (s : TState)
    (h1 : t ∈ utciDeclOrder) (h2 : runStateU ext t = s) :
    (t, s) ∈ runReportU ext := by
  unfold runReportU
  exact List.mem_map.mpr ⟨t, h1, by rw [h2]⟩

theorem parseTpl_full_id_pts :
    parseTpl "\x7b\x7bitem.full_id\x7d\x7d.pts" =
      [.itemField "full_id", .lit '.', .lit 'p', .lit 't', .lit 's'] := rfl

theorem parseTpl_full_id :
    parseTpl "\x7b\x7bitem.full_id\x7d\x7d" = [.itemField "full_id"] := rfl

theorem parseTpl_count :
    parseTpl "\x7b\x7bitem.count\x7d\x7d" = [.itemField "count"] := rfl

theorem resolveItemTpl_full_id_pts (it : Item) :
    resolveItemTpl it "\x7b\x7bitem.full_id\x7d\x7d.pts" =
      some (it.full_id ++ ".pts") := by
  rcases it with ⟨⟨l⟩, c⟩
  rfl

theorem resolveItemTpl_full_id (it : Item) :
    resolveItemTpl it "\x7b\x7bitem.full_id\x7d\x7d" = some it.full_id := by
  rcases it with ⟨⟨l⟩, c⟩
  show (renderTpl _ _ (parseTpl _)).map String.mk = _
  rw [parseTpl_full_id]
  simp [renderTpl, itemScope, String.toList]

theorem resolveItemTpl_count (it : Item) :
    resolveItemTpl it "\x7b\x7bitem.count\x7d\x7d" =
      some (toString it.count) := by
  rcases it with ⟨⟨l⟩, c⟩
  show (renderTpl _ _ (parseTpl _)).map String.mk = _
  rw [parseTpl_count]
  simp [renderTpl, itemScope, String.toList]

theorem utciTopologicalOrder_eval :
    utciTopologicalOrder = utciDeclOrder := by decide

/-- C1: over the dependency relation of UtciComfortMapEntryPoint (the needs
lists augmented with the implicit edges induced by output references), the
relation is acyclic, and topological_order yields a sequence containing every
declared task exactly once in which every task of a task's needs set appears
strictly earlier. -/
theorem utci_topological_order_correct :
    Acyclic utciAug ∧
    ∀ t : UTask,
      utciTopologicalOrder.count t = 1 ∧
      (utciNeeds t).all
        (fun d => decide (utciTopologicalOrder.indexOf d <
          utciTopologicalOrder.indexOf t)) = true := by
  constructor
  · exact ⟨utciRank, by unfold rankedAcyclic; decide⟩
  · decide

/-- C4: in every DAG class of this repository, every task whose declared
output another task references (in an input binding or as a loop source) is a
member of that task's declared needs list. -/
theorem output_refs_subset_of_needs :
    repoGraphs.all (fun g => g.2.all (fun t =>
      t.refs.all (fun r => t.needs.contains r))) = true := by decide

/-- C7 exhibit: among the five tasks of this repository whose template is
another DAG or GroupedDAG class, exactly one required inner input is left
unbound - trans_schedules of ComfortMappingEntryPoint is not bound by
run_comfort_map, contradicting the claim that every required input of every
inner graph is bound. -/
theorem trans_schedules_required_not_bound :
    dagTemplateTasks.map (fun d => (d.taskName, unboundRequired d)) =
      [("run_radiance_simulation", []),
       ("run_comfort_map", ["trans_schedules"]),
       ("run_radiance_shade_contrib", []),
       ("annual_irradiance_raytracing", []),
       ("calculate_spherical_view_factors", [])] := by decide

/-- C10 exhibit: the view_factors input of ComfortMappingEntryPoint declares
extensions npy, yet run_comfort_map binds it to the per-item path
radiance/longwave/view_factors/grid_1.csv (for the item grid_1) - exactly the
csv path produced by compute_spherical_view_factors - whose extension csv is
not in the declared list, contradicting the claim that every binding matches
the declared extensions. -/
theorem view_factors_extension_mismatch :
    viewFactorsExtensions = ["npy"] ∧
    resolvedRunComfortInput ⟨"grid_1", 50⟩ "view_factors" =
      some "radiance/longwave/view_factors/grid_1.csv" ∧
    producerPathUnderRadiance ⟨"grid_1", 50⟩ computeSphericalViewFactorsTo =
      some "radiance/longwave/view_factors/grid_1.csv" ∧
    extensionOf "radiance/longwave/view_factors/grid_1.csv" = "csv" ∧
    "csv" ∉ viewFactorsExtensions := by
  refine ⟨rfl, by decide, by decide, by decide, by decide⟩

/-- C2: in every run of the UtciComfortMapEntryPoint graph in which
run_energy_simulation ends Failed, run_comfort_map and the six restructure
tasks (its direct and transitive dependents) end Skipped - never Succeeded -
and appear with that state in the run report, while the independent
create_sky_dome is never Skipped. -/
theorem utci_failure_skips_dependents (ext : UTask → Bool)
    (h : runStateU ext .run_energy_simulation = .Failed) :
    (runStateU ext .run_comfort_map = .Skipped ∧
      ∀ r ∈ restructureTasks, runStateU ext r = .Skipped) ∧
    (∀ r ∈ UTask.run_comfort_map :: restructureTasks,
      (r, TState.Skipped) ∈ runReportU ext) ∧
    runStateU ext .create_sky_dome ≠ .Skipped := by
  have hc : runStateU ext .run_comfort_map = .Skipped := by
    rw [runStateU_unfold]
    simp [utciNeeds, h, isBad]
  have hr : ∀ r ∈ restructureTasks, runStateU ext r = .Skipped := by
    intro r hrm
    fin_cases hrm <;>
      (rw [runStateU_unfold]; simp [utciNeeds, hc, isBad])
  refine ⟨⟨hc, hr⟩, ?_, ?_⟩
  · intro r hrm
    fin_cases hrm
    · exact mem_runReport ext _ _ (by decide) hc
    all_goals exact mem_runReport ext _ _ (by decide) (hr _ (by decide))
  · rw [runStateU_unfold]
    simp only [utciNeeds, List.any_nil, Bool.false_eq_true, if_false]
    cases h2 : ext .create_sky_dome <;> simp

theorem utci_failure_skips_dependents_witness :
    runStateU extEnergyFails .run_energy_simulation = .Failed ∧
    runStateU extEnergyFails .run_comfort_map = .Skipped ∧
    runStateU extEnergyFails .create_sky_dome ≠ .Skipped := by
  have h1 : runStateU extEnergyFails .run_energy_simulation = .Failed := by
    decide
  have h2 := utci_failure_skips_dependents extEnergyFails h1
  exact ⟨h1, h2.1.1, h2.2.2⟩

/-- C3: fanned out over any non-empty sensor_grids Item sequence, the looping
task run_radiance_simulation yields exactly one TaskInstance per Item, whose
sensor_grid sub-path is the Item's full_id followed by .pts, whose grid_name
is the full_id and whose sensor_count is the Item's count; and the instances
cannot be dispatched before split_grid_folder succeeds - it is in the needs
set, precedes run_radiance_simulation in the topological order, and any
non-Succeeded terminal state of it leaves run_radiance_simulation Skipped. -/
theorem run_radiance_fanout_correct (items : List Item)
    (_hne : items ≠ []) :
    fanOut runRadianceLoopDecl items =
      items.map (fun it =>
        { taskName := "run_radiance_simulation"
          subPaths := [("sensor_grid", it.full_id ++ ".pts")]
          inputs := [("grid_name", it.full_id),
                     ("sensor_count", toString it.count)] }) ∧
    UTask.split_grid_folder ∈ utciNeeds .run_radiance_simulation ∧
    utciRank .split_grid_folder < utciRank .run_radiance_simulation ∧
    ∀ ext : UTask → Bool, runStateU ext .split_grid_folder ≠ .Succeeded →
      runStateU ext .run_radiance_simulation = .Skipped := by
  refine ⟨?_, by decide, by decide, ?_⟩
  · unfold fanOut
    apply List.map_congr_left
    intro it hmem
    simp [runRadianceLoopDecl, resolveItemTpl_full_id_pts,
      resolveItemTpl_full_id, resolveItemTpl_count]
  · intro ext hsg
    have hb : isBad (runStateU ext .split_grid_folder) = true := by
      cases h2 : runStateU ext .split_grid_folder with
      | Succeeded => exact absurd h2 hsg
      | Failed => rfl
      | Skipped => rfl
    rw [runStateU_unfold]
    simp [utciNeeds, hb]

theorem run_radiance_fanout_correct_witness :
    ([(⟨"grid_1", 50⟩ : Item)] ≠ []) ∧
    fanOut runRadianceLoopDecl [⟨"grid_1", 50⟩] =
      [{ taskName := "run_radiance_simulation"
         subPaths := [("sensor_grid", "grid_1.pts")]
         inputs := [("grid_name", "grid_1"), ("sensor_count", "50")] }] := by
  constructor
  · decide
  · rw [(run_radiance_fanout_correct [⟨"grid_1", 50⟩] (by decide)).1]
    decide

/-- C5: for the Grouped Sub-DAG ComfortMappingEntryPoint behind
run_comfort_map, any inner failure makes the outer task Failed with a
genuinely failing inner task's identity preserved in the reported error and
no inner outputs surfaced; the declared inner outputs are surfaced if and
only if every inner task Succeeded. -/
theorem comfort_subdag_failure_reporting (ext : CTask → Bool)
    (h : ∃ t ∈ comfortDeclOrder, runStateC ext t = .Failed) :
    (∃ t2, reportedInnerFailure ext = some t2 ∧
      runStateC ext t2 = .Failed ∧ t2 ∈ comfortDeclOrder) ∧
    outerStateOfInner ext = .Failed ∧
    surfacedOutputs ext = none ∧
    (surfacedOutputs ext = some comfortOutputPaths ↔
      ∀ t ∈ comfortDeclOrder, runStateC ext t = .Succeeded) := by
  obtain ⟨t0, ht0, hf0⟩ := h
  have hall : comfortDeclOrder.all
      (fun t => runStateC ext t == .Succeeded) = false := by
    apply List.all_eq_false.mpr
    exact ⟨t0, ht0, by rw [hf0]; decide⟩
  refine ⟨?_, ?_, ?_, ?_⟩
  · cases hfind : reportedInnerFailure ext with
    | none =>
        exfalso
        have h2 := List.find?_eq_none.mp hfind t0 ht0
        rw [hf0] at h2
        exact h2 (by decide)
    | some t2 =>
        refine ⟨t2, rfl, ?_, List.mem_of_find?_eq_some hfind⟩
        have h3 := List.find?_some hfind
        simpa using h3
  · unfold outerStateOfInner
    rw [hall]
    rfl
  · unfold surfacedOutputs
    rw [hall]
    rfl
  · constructor
    · intro hs
      unfold surfacedOutputs at hs
      rw [hall] at hs
      exact absurd hs (by simp)
    · intro hsucc
      have h4 := hsucc t0 ht0
      rw [hf0] at h4
      exact absurd h4 (by decide)

theorem comfort_subdag_failure_reporting_witness :
    reportedInnerFailure extLongwaveFails = some .create_longwave_mrt_map ∧
    surfacedOutputs extLongwaveFails = none ∧
    outerStateOfInner extLongwaveFails = .Failed := by
  have h := comfort_subdag_failure_reporting extLongwaveFails
    ⟨.create_longwave_mrt_map, by decide, by decide⟩
  exact ⟨by decide, h.2.2.1, h.2.1⟩

/-- C6: fan-out of run_radiance_simulation and run_comfort_map over an empty
sensor_grids Item sequence produces zero TaskInstances, both looping tasks
are vacuously Succeeded for every per-instance behaviour, and whenever
run_comfort_map ends Succeeded the six restructure tasks are dispatched on
their own external behaviour and are never Skipped. -/
theorem empty_loop_vacuous_success :
    fanOut runRadianceLoopDecl [] = [] ∧
    fanOut runComfortLoopDecl [] = [] ∧
    (∀ f : TaskInstance → Bool,
      loopOutcome f runRadianceLoopDecl [] = .Succeeded ∧
      loopOutcome f runComfortLoopDecl [] = .Succeeded) ∧
    (∀ ext : UTask → Bool, runStateU ext .run_comfort_map = .Succeeded →
      ∀ r ∈ restructureTasks,
        runStateU ext r = (if ext r then .Succeeded else .Failed) ∧
        runStateU ext r ≠ .Skipped) := by
  refine ⟨rfl, rfl, fun f => ⟨rfl, rfl⟩, ?_⟩
  intro ext h r hrm
  have hst : runStateU ext r = (if ext r then .Succeeded else .Failed) := by
    fin_cases hrm <;> (rw [runStateU_unfold]; simp [utciNeeds, h, isBad])
  refine ⟨hst, ?_⟩
  rw [hst]
  cases h2 : ext r <;> simp

theorem empty_loop_vacuous_success_witness :
    fanOut runRadianceLoopDecl [] = [] ∧
    runStateU (fun _ => true) .restructure_tcp_results ≠ .Skipped := by
  refine ⟨empty_loop_vacuous_success.1, ?_⟩
  exact (empty_loop_vacuous_success.2.2.2 (fun _ => true) (by decide)
    .restructure_tcp_results (by decide)).2

/-- C8: two runs of the UtciComfortMapEntryPoint graph with identical
external behaviour produce identical run reports (hence identical terminal
states), and the topological order breaks every tie by declaration order:
each emitted task is the declaration-order-first remaining task whose
dependencies are all already emitted. -/
theorem utci_run_deterministic :
    (∀ ext1 ext2 : UTask → Bool, (∀ t, ext1 t = ext2 t) →
      runReportU ext1 = runReportU ext2) ∧
    ∀ i : Nat, ∀ h : i < utciTopologicalOrder.length,
      firstReady utciAug utciDeclOrder (utciTopologicalOrder.take i) =
        some (utciTopologicalOrder.get ⟨i, h⟩) := by
  constructor
  · intro ext1 ext2 hext
    have h2 : ext1 = ext2 := funext hext
    rw [h2]
  · decide

theorem utci_run_deterministic_witness :
    runReportU (fun _ => true) = runReportU (fun _ => true) ∧
    firstReady utciAug utciDeclOrder [] = some .create_sim_par := by
  refine ⟨utci_run_deterministic.1 (fun _ => true) (fun _ => true)
    (fun t => rfl), ?_⟩
  exact utci_run_deterministic.2 0 (by decide)

/-- C9: for every Item, the per-item enclosure_info and indirect_irradiance
input paths consumed by run_comfort_map coincide with the fully-resolved
destination paths that get_enclosure_info and output_matrix_math declare
under the radiance sub_folder of run_radiance_simulation, and the
air_speed_mtx input is the output reference whose declared folder is
initial_results/conditions/air_speeds, the output folder of
split_air_speed_folder. -/
theorem run_comfort_item_paths_align (it : Item) :
    resolvedRunComfortInput it "enclosure_info" =
      producerPathUnderRadiance it getEnclosureInfoTo ∧
    resolvedRunComfortInput it "enclosure_info" =
      some ("radiance/enclosures/" ++ it.full_id ++ ".json") ∧
    resolvedRunComfortInput it "indirect_irradiance" =
      producerPathUnderRadiance it outputMatrixMathTo ∧
    resolvedRunComfortInput it "indirect_irradiance" =
      some ("radiance/shortwave/results/indirect/" ++ it.full_id ++ ".ill") ∧
    runComfortAirSpeedRef = (.split_air_speed_folder, "output_folder") ∧
    List.lookup "output_folder" splitAirSpeedFolderOutputs =
      some "initial_results/conditions/air_speeds" := by
  rcases it with ⟨⟨l⟩, c⟩
  have hg : gridNameOfItem ⟨⟨l⟩, c⟩ = some (String.mk l) :=
    resolveItemTpl_full_id ⟨⟨l⟩, c⟩
  refine ⟨?_, rfl, ?_, rfl, rfl, rfl⟩
  · unfold producerPathUnderRadiance
    rw [hg]
    rfl
  · unfold producerPathUnderRadiance
    rw [hg]
    rfl
